import Mathlib

/-!
# Blog management system: session lifecycle and blog ownership

A shallow embedding of `src/controllers/user.controller.js`,
`src/controllers/blog.controller.js` and the error middleware of `src/index.js`.

* The `users` collection is a list of documents in insertion order; lookups are
  total functions on it. In the user controller an `_id` is only handed to Mongoose
  queries and to `jwt.sign`, which take it by value, so it is a number here; the blog
  controller compares `ObjectId` instances with `!==`, so there a value carries its heap
  identity as well (`JsValue`).
* Request fields (`req.body.email`, `req.cookies.refreshToken`, ...) are absent or
  strings.
* `jsonwebtoken` and `bcrypt` are third-party libraries and enter as parameters
  (`Jwt`, `Bcrypt`). A token is a function of the payload and the secret; the payload is
  the `_id` with the `iat` and `exp` that `jwt.sign` derives from the clock.
* Every request reads the clock once (`now`, in seconds, the granularity of `iat` and
  `exp`).
* Two database writes can be rejected: `User.create`, whose failure `registerUser`
  catches, and `user.save()`, whose failure the ordering rule of the specification
  (tokens are returned only after the refresh token is stored) is about. The outcome of
  each is an input of the handler that issues it.
* A handler is a function from the request and the state before it to the thrown
  error or the response, paired with the state after it; `asyncHandler` turns the
  thrown error into the response of the error middleware.
-/

set_option autoImplicit false

namespace BlogApi

/-! ## Errors and responses -/

/-- Modelled from the spec: the `ApiError` class of `utils/ApiError.js`, which is not
among the sources. The controllers call `new ApiError(statusCode, message)`; the spec
(section 7) says these failures are mapped to a client-visible response carrying the
status classification and the message, so the error is operational and its `errors`
list is empty. -/
structure ApiError where
  statusCode : Nat
  message : String
  errors : List String := []
  isOperational : Bool := true
deriving DecidableEq, Repr

/-- What a handler can throw: an `ApiError`, or any other error (a rejected database
write, a `ReferenceError`), of which only the message is kept. -/
inductive Thrown where
  | api (e : ApiError)
  | other (message : String)
deriving DecidableEq, Repr

/-- The options object of `res.cookie` and `res.clearCookie`. -/
structure CookieOptions where
  httpOnly : Bool
  secure : Bool
  sameSite : String
  maxAge : Nat
deriving DecidableEq, Repr

/-- `accessTokenOptions` (user.controller.js, lines 25-30). -/
def accessTokenOptions : CookieOptions :=
  { httpOnly := true, secure := false, sameSite := "lax", maxAge := 1000 * 60 * 15 }

/-- `refreshTokenOptions` (user.controller.js, lines 32-37). -/
def refreshTokenOptions : CookieOptions :=
  { httpOnly := true, secure := false, sameSite := "lax", maxAge := 1000 * 60 * 60 * 24 * 15 }

/-- One `res.cookie(name, value, options)` call. -/
structure Cookie where
  name : String
  value : String
  options : CookieOptions
deriving DecidableEq, Repr

/-- A user document after `.select("-password -refreshToken")`. -/
structure PublicUser where
  _id : Nat
  username : String
  avatar : String
  avatarFileId : String
  email : String
deriving DecidableEq, Repr

/-- A document of the `blogs` collection (blog.model.js). `owner` is the stored id
value; the field is not required by the schema. -/
structure BlogDoc where
  _id : Nat
  title : String
  description : String
  thumbnail : String
  thumbnailFileId : String
  owner : Option Nat
deriving DecidableEq, Repr

/-- The `data` argument of `new ApiResponse(...)`. -/
inductive Data where
  | null
  | user (u : Option PublicUser)
  | login (user : Option PublicUser)
  | blog (b : BlogDoc)
deriving DecidableEq, Repr

/-- The JSON body of a response: an `ApiResponse` (its three constructor arguments), or
the object literal the error middleware sends. -/
inductive Body where
  | apiResponse (statusCode : Nat) (data : Data) (message : String)
  | failure (success : Bool) (statusCode : Nat) (message : String) (errors : List String)
deriving DecidableEq, Repr

/-- The response as built by the `res.status(..).cookie(..).clearCookie(..).json(..)`
chain. -/
structure HttpResponse where
  status : Nat
  cookies : List Cookie := []
  clearedCookies : List (String × CookieOptions) := []
  body : Body
deriving DecidableEq, Repr

/-- The error middleware of index.js, lines 23-39. -/
def errorMiddleware : Thrown → HttpResponse
  | .api err =>
    if err.isOperational then
      { status := err.statusCode,
        body := .failure false err.statusCode err.message err.errors }
    else
      { status := 500, body := .failure false 500 "Internal server Error" [] }
  | .other _ =>
    { status := 500, body := .failure false 500 "Internal server Error" [] }

/-- Modelled from the spec: `asyncHandler` of `utils/asyncHandler.js`, which is not
among the sources. A handler that returns has sent its response; a handler that throws
has its error caught at the outermost boundary (spec, section 7) and handed to the error
middleware. -/
def asyncHandler (result : Except Thrown HttpResponse) : HttpResponse :=
  match result with
  | .ok res => res
  | .error err => errorMiddleware err

/-- The value of the cookie `name` set on a response, if any. -/
def HttpResponse.cookie (res : HttpResponse) (name : String) : Option String :=
  (res.cookies.find? (fun c => c.name == name)).map (fun c => c.value)

/-! ## Libraries -/

/-- The claims of a token: the `_id` given to `jwt.sign`, and the `iat` and `exp`
fields that `jwt.sign` adds from the clock and `expiresIn`. -/
structure JwtPayload where
  _id : Nat
  iat : Nat
  exp : Nat
deriving DecidableEq, Repr

/-- The `jsonwebtoken` library: `sign payload secret` is the compact serialisation signed
under `secret`; `decode token secret` checks the signature under `secret` and parses the
payload. Neither reads the clock. -/
structure Jwt where
  sign : JwtPayload → String → String
  decode : String → String → Option JwtPayload

/-- A token signed under a secret decodes, under that secret, to the payload signed. -/
def Jwt.Lawful (jwt : Jwt) : Prop :=
  ∀ (p : JwtPayload) (secret : String), jwt.decode (jwt.sign p secret) secret = some p

/-- `jwt.sign({ _id }, secret, { expiresIn })` at clock reading `now`. -/
def Jwt.signAt (jwt : Jwt) (userId : Nat) (secret : String) (expiresIn now : Nat) : String :=
  jwt.sign { _id := userId, iat := now, exp := now + expiresIn } secret

/-- `jwt.verify(token, secret)` at clock reading `now`: `none` stands for the exception
(bad signature, malformed token, or `now >= exp`). -/
def Jwt.verify (jwt : Jwt) (token secret : String) (now : Nat) : Option JwtPayload :=
  match jwt.decode token secret with
  | none => none
  | some p => if now ≥ p.exp then none else some p

/-- The `bcrypt` library; `salt` is the random salt `hash` draws. -/
structure Bcrypt where
  hash : String → Nat → String → String
  compare : String → String → Bool

/-- The `process.env` entries the token functions read; expiries in seconds. -/
structure Config where
  ACCESS_TOKEN_SECRET : String
  ACCESS_TOKEN_EXPIRY : Nat
  REFRESH_TOKEN_SECRET : String
  REFRESH_TOKEN_EXPIRY : Nat

/-! ## The users collection -/

/-- A document of the `users` collection (user.model.js). -/
structure User where
  _id : Nat
  username : String
  avatar : String
  avatarFileId : String
  email : String
  password : String
  refreshToken : Option String
deriving DecidableEq, Repr

/-- The `users` collection, in insertion order. -/
abbrev Store := List User

/-- The projection `.select("-password -refreshToken")`. -/
def User.select (u : User) : PublicUser :=
  { _id := u._id, username := u.username, avatar := u.avatar,
    avatarFileId := u.avatarFileId, email := u.email }

/-- `User.findById(id)`. -/
def User.findById (store : Store) (id : Nat) : Option User :=
  store.find? (fun u => decide (u._id = id))

/-- `User.findOne({ $or: [{ email }] })`: the first document with that email. -/
def User.findOneByEmail (store : Store) (email : String) : Option User :=
  store.find? (fun u => decide (u.email = email))

/-- The code points `String.prototype.trim` strips. -/
def isTrimmed (c : Char) : Bool :=
  c.toNat = 0x09 || c.toNat = 0x0A || c.toNat = 0x0B || c.toNat = 0x0C || c.toNat = 0x0D ||
  c.toNat = 0x20 || c.toNat = 0xA0 || c.toNat = 0x1680 ||
  (0x2000 ≤ c.toNat && c.toNat ≤ 0x200A) || c.toNat = 0x2028 || c.toNat = 0x2029 ||
  c.toNat = 0x202F || c.toNat = 0x205F || c.toNat = 0x3000 || c.toNat = 0xFEFF

/-- The `trim: true` setter of the `username` path (user.model.js, line 11): white space
is stripped at both ends. Mongoose runs it on the value stored and on the value of a
query filter alike. -/
def trim (s : String) : String :=
  String.mk ((s.data.dropWhile isTrimmed).reverse.dropWhile isTrimmed).reverse

/-- `User.findOne({ $or: [{ username }, { email }] })`; the filter's `username` is cast
through the schema, hence trimmed. -/
def User.findOneByUsernameOrEmail (store : Store) (username email : String) : Option User :=
  store.find? (fun u => decide (u.username = trim username) || decide (u.email = email))

/-- The update of the `refreshToken` path of the document with the given `_id`:
`$set` when `token` is `some`, `$unset` when it is `none`. -/
def Store.setRefreshToken : Store → Nat → Option String → Store
  | [], _, _ => []
  | u :: us, id, token =>
    if u._id = id then { u with refreshToken := token } :: us
    else u :: Store.setRefreshToken us id token

/-- `user.save({ validateBeforeSave: false })` after `user.refreshToken = token`: the
modified path is written to the document with `user._id`, unless the driver rejects the
write (`saveError`), in which case the rejection is thrown and nothing is written. -/
def User.save (store : Store) (user : User) (token : String) (saveError : Option String) :
    Except Thrown Unit × Store :=
  match saveError with
  | some msg => (.error (.other msg), store)
  | none => (.ok (), Store.setRefreshToken store user._id (some token))

/-- `User.findByIdAndUpdate(userId, { $unset: { refreshToken: 1 } }, { new: true })`. -/
def User.findByIdAndUpdate (store : Store) (userId : Nat) : Store :=
  Store.setRefreshToken store userId none

/-! ## user.controller.js -/

/-- JavaScript `!value` for a request field that is absent or a string. -/
def falsy : Option String → Bool
  | none => true
  | some s => decide (s = "")

/-- `generateAccessToken` (lines 9-15). -/
def generateAccessToken (jwt : Jwt) (cfg : Config) (userId now : Nat) : String :=
  jwt.signAt userId cfg.ACCESS_TOKEN_SECRET cfg.ACCESS_TOKEN_EXPIRY now

/-- `generateRefreshToken` (lines 17-23). -/
def generateRefreshToken (jwt : Jwt) (cfg : Config) (userId now : Nat) : String :=
  jwt.signAt userId cfg.REFRESH_TOKEN_SECRET cfg.REFRESH_TOKEN_EXPIRY now

/-- What a login or refresh request finds outside the store: the clock reading and the
outcome of the one write it issues. -/
structure Env where
  now : Nat
  saveError : Option String := none

/-- `loginUser` (lines 97-140). -/
def loginUser (jwt : Jwt) (bcrypt : Bcrypt) (cfg : Config) (env : Env)
    (email password : Option String) (store : Store) : Except Thrown HttpResponse × Store :=
  if falsy email || falsy password then
    (.error (.api { statusCode := 400, message := "Email or username and password are required" }),
      store)
  else
    match User.findOneByEmail store (email.getD "") with
    | none => (.error (.api { statusCode := 404, message := "User does not exist" }), store)
    | some user =>
      if !bcrypt.compare (password.getD "") user.password then
        (.error (.api { statusCode := 401, message := "Invalid credentials" }), store)
      else
        let accessToken := generateAccessToken jwt cfg user._id env.now
        let refreshToken := generateRefreshToken jwt cfg user._id env.now
        match User.save store user refreshToken env.saveError with
        | (.error err, store1) => (.error err, store1)
        | (.ok (), store1) =>
          let loggedInUser := (User.findById store1 user._id).map User.select
          (.ok { status := 200,
                 cookies := [⟨"accessToken", accessToken, accessTokenOptions⟩,
                             ⟨"refreshToken", refreshToken, refreshTokenOptions⟩],
                 body := .apiResponse 200 (.login loggedInUser) "Login successful" },
            store1)

/-- `logoutUser` (lines 142-159); `userId` is `req.user?._id`. -/
def logoutUser (userId : Option Nat) (store : Store) : Except Thrown HttpResponse × Store :=
  let store1 :=
    match userId with
    | some id => User.findByIdAndUpdate store id
    | none => store
  (.ok { status := 200,
         clearedCookies := [("accessToken", accessTokenOptions),
                            ("refreshToken", refreshTokenOptions)],
         body := .apiResponse 200 .null "Logged out successfully" },
    store1)

/-- `refreshAccessToken` (lines 161-201); `incomingRefreshToken` is
`req.cookies?.refreshToken`. -/
def refreshAccessToken (jwt : Jwt) (cfg : Config) (env : Env)
    (incomingRefreshToken : Option String) (store : Store) :
    Except Thrown HttpResponse × Store :=
  if falsy incomingRefreshToken then
    (.error (.api { statusCode := 401, message := "Refresh token missing" }), store)
  else
    let token := incomingRefreshToken.getD ""
    match jwt.verify token cfg.REFRESH_TOKEN_SECRET env.now with
    | none =>
      (.error (.api { statusCode := 401, message := "Invalid or expired refresh token" }), store)
    | some decoded =>
      match User.findById store decoded._id with
      | none =>
        (.error (.api { statusCode := 401, message := "Refresh token is invalid or reused" }),
          store)
      | some user =>
        if user.refreshToken ≠ some token then
          (.error (.api { statusCode := 401, message := "Refresh token is invalid or reused" }),
            store)
        else
          let newAccessToken := generateAccessToken jwt cfg user._id env.now
          let newRefreshToken := generateRefreshToken jwt cfg user._id env.now
          match User.save store user newRefreshToken env.saveError with
          | (.error err, store1) => (.error err, store1)
          | (.ok (), store1) =>
            (.ok { status := 200,
                   cookies := [⟨"accessToken", newAccessToken, accessTokenOptions⟩,
                               ⟨"refreshToken", newRefreshToken, refreshTokenOptions⟩],
                   body := .apiResponse 200 .null "Access token refreshed successfully" },
              store1)

/-- Modelled from the spec: the object `uploadOnImageKit` of `utils/imagekit.js` (not
among the sources) resolves to on success, `{ url, fileId }` (spec, section 6). -/
structure Upload where
  url : String
  fileId : String
deriving DecidableEq, Repr

/-- The state a registration acts on: the `users` collection, the deletions requested
from the asset host so far, and the server log. -/
structure World where
  users : Store
  deleteRequests : List String
  log : List String
deriving DecidableEq, Repr

/-- What a registration finds outside the state: the outcome of the upload (`none` is
the falsy value the handler tests for), the salt `bcrypt.hash` draws, the `_id` the
database assigns, the outcome of `User.create`, and whether the asset host fails the
deletion. -/
structure RegisterEnv where
  upload : Option Upload
  salt : String
  newId : Nat
  createError : Option String := none
  deleteFails : Bool := false

/-- Modelled from the spec: `deleteOnImageKit` of `utils/imagekit.js`, which is not among
the sources. Section 7 of the spec: the compensating deletion is best-effort, a failure to
delete is logged, not propagated. The call records the request, logs a failure, and
always returns. -/
def deleteOnImageKit (fileId : String) (fails : Bool) (w : World) : World :=
  { w with
    deleteRequests := w.deleteRequests ++ [fileId],
    log := if fails then w.log ++ ["ImageKit delete failed: " ++ fileId] else w.log }

/-- `User.create(doc)`: the document is appended, unless the database rejects it
(`createError`: a validation error, a duplicate key, a lost connection), in which case
the rejection is thrown and nothing is written. -/
def User.create (store : Store) (doc : User) (createError : Option String) :
    Except Thrown User × Store :=
  match createError with
  | some msg => (.error (.other msg), store)
  | none => (.ok doc, store ++ [doc])

/-- `registerUser` (lines 39-95); `filePath` is `req.file?.path`. -/
def registerUser (bcrypt : Bcrypt) (env : RegisterEnv)
    (username email password filePath : Option String) (w : World) :
    Except Thrown HttpResponse × World :=
  if falsy username || falsy email || falsy password then
    (.error (.api { statusCode := 400, message := "All fields are required" }), w)
  else if falsy filePath then
    (.error (.api { statusCode := 400, message := "Avatar is required" }), w)
  else
    match User.findOneByUsernameOrEmail w.users (username.getD "") (email.getD "") with
    | some _ => (.error (.api { statusCode := 409, message := "User already exists" }), w)
    | none =>
      match env.upload with
      | none => (.error (.api { statusCode := 500, message := "Avatar upload failed" }), w)
      | some avatarUpload =>
        let hashedPassword := bcrypt.hash (password.getD "") 10 env.salt
        match User.create w.users
            { _id := env.newId, username := trim (username.getD ""), avatar := avatarUpload.url,
              avatarFileId := avatarUpload.fileId, email := email.getD "",
              password := hashedPassword, refreshToken := none } env.createError with
        | (.error error, users1) =>
          (.error error,
            deleteOnImageKit avatarUpload.fileId env.deleteFails { w with users := users1 })
        | (.ok user, users1) =>
          let createdUser := (User.findById users1 user._id).map User.select
          (.ok { status := 201,
                 body := .apiResponse 201 (.user createdUser) "User registered successfully" },
            { w with users := users1 })

/-! ## blog.controller.js -/

/-- A JavaScript value as the ownership check meets it: `undefined`, a string, or an
`ObjectId` instance, which has a heap identity (`ref`) besides the id it holds. -/
inductive JsValue where
  | undefined
  | string (s : String)
  | objectId (ref : Nat) (value : Nat)
deriving DecidableEq, Repr

/-- JavaScript `a !== b`: primitives compare by value, objects by identity. -/
def JsValue.strictNe : JsValue → JsValue → Bool
  | .undefined, .undefined => false
  | .string a, .string b => decide (a ≠ b)
  | .objectId r1 _, .objectId r2 _ => decide (r1 ≠ r2)
  | _, _ => true

/-- The value was created before the heap reached `next`. -/
def JsValue.allocatedBefore : JsValue → Nat → Bool
  | .objectId ref _, next => decide (ref < next)
  | _, _ => true

/-- The `blogs` collection and the next unused heap identity. -/
structure BlogState where
  blogs : List BlogDoc
  nextRef : Nat
deriving DecidableEq, Repr

/-- A document as Mongoose hands it to the handler: the stored fields, and the `owner`
path as the JavaScript value the handler reads. -/
structure HydratedBlog where
  doc : BlogDoc
  owner : JsValue
deriving DecidableEq, Repr

/-- `Blog.findById(blogId)`: the stored document is hydrated into a new object, whose
`owner`, when stored, is a newly allocated `ObjectId` instance. -/
def Blog.findById (st : BlogState) (blogId : Nat) : Option HydratedBlog × BlogState :=
  match st.blogs.find? (fun b => decide (b._id = blogId)) with
  | none => (none, st)
  | some b =>
    match b.owner with
    | none => (some { doc := b, owner := .undefined }, st)
    | some v => (some { doc := b, owner := .objectId st.nextRef v },
        { st with nextRef := st.nextRef + 1 })

/-- `blog.deleteOne()`: the document with that `_id` is removed. -/
def Blog.deleteOne : List BlogDoc → Nat → List BlogDoc
  | [], _ => []
  | b :: bs, id => if b._id = id then bs else b :: Blog.deleteOne bs id

/-- `blog.save()`: the document with that `_id` is replaced by the edited one. -/
def Blog.save : List BlogDoc → BlogDoc → List BlogDoc
  | [], _ => []
  | b :: bs, doc => if b._id = doc._id then doc :: bs else b :: Blog.save bs doc

/-- `deleteBlog` (lines 106-127); `userId` is `req.user._id`. -/
def deleteBlog (userId : JsValue) (blogId : Nat) (st : BlogState) :
    Except Thrown HttpResponse × BlogState :=
  match Blog.findById st blogId with
  | (none, st1) => (.error (.api { statusCode := 404, message := "Blog not found" }), st1)
  | (some blog, st1) =>
    if blog.owner.strictNe userId then
      (.error (.api { statusCode := 403, message := "You are not allowed to delete this blog" }),
        st1)
    else
      (.ok { status := 200, body := .apiResponse 200 .null "Blog deleted successfully" },
        { st1 with blogs := Blog.deleteOne st1.blogs blog.doc._id })

/-- `updateBlog` (lines 66-104); `filePath` is `req.file?.path` and `upload` the outcome
of `uploadOnImageKit`. The module does not import `deleteOnImageKit`, so evaluating that
name (line 93) throws a `ReferenceError`. -/
def updateBlog (userId : JsValue) (blogId : Nat) (title description filePath : Option String)
    (upload : Option Upload) (st : BlogState) : Except Thrown HttpResponse × BlogState :=
  match Blog.findById st blogId with
  | (none, st1) => (.error (.api { statusCode := 404, message := "Blog not found" }), st1)
  | (some blog, st1) =>
    if blog.owner.strictNe userId then
      (.error (.api { statusCode := 403, message := "You are not allowed to update this blog" }),
        st1)
    else
      let doc1 := if falsy title then blog.doc else { blog.doc with title := title.getD "" }
      let doc2 := if falsy description then doc1
        else { doc1 with description := description.getD "" }
      if falsy filePath then
        (.ok { status := 200, body := .apiResponse 200 (.blog doc2) "Blog updated successfully" },
          { st1 with blogs := Blog.save st1.blogs doc2 })
      else
        match upload with
        | none =>
          (.error (.api { statusCode := 500, message := "Thumbnail upload failed" }), st1)
        | some _ =>
          (.error (.other "ReferenceError: deleteOnImageKit is not defined"), st1)

/-! ## A reference implementation of the token library

Tokens are `i`*id `.` `t`*iat `.` `e`*exp `.` secret: deterministic in the payload and
the secret, as an HMAC-signed token is. -/

/-- Serialise and sign. -/
def refSign (p : JwtPayload) (secret : String) : String :=
  String.mk (List.replicate p._id 'i' ++ '.' ::
    (List.replicate p.iat 't' ++ '.' :: (List.replicate p.exp 'e' ++ '.' :: secret.data)))

/-- Consume a run of `c` closed by a dot: the length of the run and the rest. -/
def refField (c : Char) (cs : List Char) : Option (Nat × List Char) :=
  match cs.dropWhile (fun x => x == c) with
  | [] => none
  | d :: rest => if d = '.' then some ((cs.takeWhile (fun x => x == c)).length, rest) else none

/-- Parse and check the signature. -/
def refDecode (token secret : String) : Option JwtPayload :=
  match refField 'i' token.data with
  | none => none
  | some (id, r1) =>
    match refField 't' r1 with
    | none => none
    | some (iat, r2) =>
      match refField 'e' r2 with
      | none => none
      | some (exp, sig) =>
        if sig = secret.data then some { _id := id, iat := iat, exp := exp } else none

/-- The reference token library. -/
def refJwt : Jwt := { sign := refSign, decode := refDecode }

/-- A reference password library: the hash is the salt, a dollar sign, and the
password. -/
def refBcrypt : Bcrypt :=
  { hash := fun password _ salt => salt ++ "$" ++ password,
    compare := fun password hashed =>
      decide (hashed.data.dropWhile (fun c => c != '$') = '$' :: password.data) }

/-- A configuration for the concrete runs, with lifetimes of a few seconds. -/
def refConfig : Config :=
  { ACCESS_TOKEN_SECRET := "a", ACCESS_TOKEN_EXPIRY := 3,
    REFRESH_TOKEN_SECRET := "r", REFRESH_TOKEN_EXPIRY := 6 }

/-- The two documents agree on every field other than `refreshToken`. -/
def User.sameButToken (u v : User) : Prop :=
  v._id = u._id ∧ v.username = u.username ∧ v.avatar = u.avatar ∧
    v.avatarFileId = u.avatarFileId ∧ v.email = u.email ∧ v.password = u.password

/-- The collection `after` has the documents of `before`, in the same order, each with
at most its `refreshToken` changed, and unchanged altogether unless its `_id` is
`target`. -/
def Store.Frame (target : Option Nat) (before after : Store) : Prop :=
  List.Forall₂ (fun u v => User.sameButToken u v ∧ (some u._id ≠ target → v = u)) before after

/-- An account for the concrete runs; its password is `secret123`. -/
def alice : User :=
  { _id := 1, username := "alice", avatar := "https://ik.example/alice.png",
    avatarFileId := "file-1", email := "alice@x.com", password := "salt$secret123",
    refreshToken := none }

/-- A second account for the concrete runs; its password is `hunter2`. -/
def bob : User :=
  { _id := 2, username := "bob", avatar := "https://ik.example/bob.png",
    avatarFileId := "file-2", email := "bob@x.com", password := "salt$hunter2",
    refreshToken := none }

/-- The four checks of `refreshAccessToken` on a presented cookie: it is a non-empty
string, `jwt.verify` accepts it under the refresh secret, an account with the decoded
`_id` exists, and that account's stored `refreshToken` is the presented string. -/
def RefreshChecks (jwt : Jwt) (cfg : Config) (now : Nat) (incoming : Option String)
    (store : Store) : Prop :=
  ∃ t, incoming = some t ∧ t ≠ "" ∧
    ∃ decoded, jwt.verify t cfg.REFRESH_TOKEN_SECRET now = some decoded ∧
      ∃ user, User.findById store decoded._id = some user ∧ user.refreshToken = some t

/-! ## Lemmas on the users collection -/

theorem find_some_pred {α : Type} (p : α → Bool) (l : List α) (a : α)
    (h : l.find? p = some a) : p a = true := by
  induction l with
  | nil => simp at h
  | cons x xs ih =>
    simp only [List.find?_cons] at h
    split at h
    · cases h; assumption
    · exact ih h

theorem findById_id (store : Store) (id : Nat) (u : User)
    (h : User.findById store id = some u) : u._id = id := by
  have := find_some_pred _ _ _ h
  simpa using this

theorem findById_setRefreshToken (store : Store) (id : Nat) (token : Option String) :
    User.findById (Store.setRefreshToken store id token) id
      = (User.findById store id).map (fun u => { u with refreshToken := token }) := by
  induction store with
  | nil => rfl
  | cons u us ih =>
    unfold User.findById at ih ⊢
    by_cases h : u._id = id
    · simp [Store.setRefreshToken, h]
    · simp [Store.setRefreshToken, h, ih]

theorem findById_of_findOneByEmail (store : Store) (email : String) (u : User)
    (h : User.findOneByEmail store email = some u) :
    ∃ v, User.findById store u._id = some v := by
  have hmem : u ∈ store := List.mem_of_find?_eq_some h
  cases hf : User.findById store u._id with
  | some v => exact ⟨v, rfl⟩
  | none =>
    unfold User.findById at hf
    rw [List.find?_eq_none] at hf
    have := hf u hmem
    simp at this

theorem findOneByEmail_setRefreshToken (store : Store) (id : Nat) (token : Option String)
    (email : String) (u : User)
    (h : User.findOneByEmail (Store.setRefreshToken store id token) email = some u) :
    ∃ v, User.findOneByEmail store email = some v ∧ v._id = u._id := by
  induction store with
  | nil => simp [Store.setRefreshToken, User.findOneByEmail] at h
  | cons x xs ih =>
    unfold User.findOneByEmail at ih h ⊢
    by_cases hx : x._id = id
    · rw [Store.setRefreshToken, if_pos hx, List.find?_cons] at h
      rw [List.find?_cons]
      by_cases he : x.email = email
      · have hd : decide (x.email = email) = true := decide_eq_true he
        simp only [hd] at h ⊢
        have hu := Option.some.inj h
        exact ⟨x, rfl, by rw [← hu]⟩
      · have hd : decide (x.email = email) = false := decide_eq_false he
        simp only [hd] at h ⊢
        exact ⟨u, h, rfl⟩
    · rw [Store.setRefreshToken, if_neg hx, List.find?_cons] at h
      rw [List.find?_cons]
      by_cases he : x.email = email
      · have hd : decide (x.email = email) = true := decide_eq_true he
        simp only [hd] at h ⊢
        have hu := Option.some.inj h
        exact ⟨x, rfl, by rw [← hu]⟩
      · have hd : decide (x.email = email) = false := decide_eq_false he
        simp only [hd] at h ⊢
        exact ih h

theorem setRefreshToken_frame (store : Store) (id : Nat) (token : Option String) :
    Store.Frame (some id) store (Store.setRefreshToken store id token) := by
  have hrefl : ∀ l : Store, Store.Frame (some id) l l := by
    intro l
    induction l with
    | nil => exact List.Forall₂.nil
    | cons x xs ih =>
      exact List.Forall₂.cons ⟨⟨rfl, rfl, rfl, rfl, rfl, rfl⟩, fun _ => rfl⟩ ih
  induction store with
  | nil => exact List.Forall₂.nil
  | cons x xs ih =>
    by_cases hx : x._id = id
    · rw [Store.setRefreshToken, if_pos hx]
      refine List.Forall₂.cons ⟨⟨rfl, rfl, rfl, rfl, rfl, rfl⟩, fun hne => ?_⟩ (hrefl xs)
      exact absurd (congrArg some hx) hne
    · rw [Store.setRefreshToken, if_neg hx]
      exact List.Forall₂.cons ⟨⟨rfl, rfl, rfl, rfl, rfl, rfl⟩, fun _ => rfl⟩ ih

theorem frame_refl (target : Option Nat) (store : Store) : Store.Frame target store store := by
  induction store with
  | nil => exact List.Forall₂.nil
  | cons x xs ih => exact List.Forall₂.cons ⟨⟨rfl, rfl, rfl, rfl, rfl, rfl⟩, fun _ => rfl⟩ ih

theorem setRefreshToken_idem (store : Store) (id : Nat) (token : Option String) :
    Store.setRefreshToken (Store.setRefreshToken store id token) id token
      = Store.setRefreshToken store id token := by
  induction store with
  | nil => rfl
  | cons x xs ih =>
    by_cases hx : x._id = id
    · simp [Store.setRefreshToken, hx]
    · simp [Store.setRefreshToken, hx, ih]

/-! ## Lemmas on `refreshAccessToken` -/

theorem refreshAccessToken_of_checks (jwt : Jwt) (cfg : Config) (env : Env) (t : String)
    (store : Store) (decoded : JwtPayload) (user : User) (ht : t ≠ "")
    (hv : jwt.verify t cfg.REFRESH_TOKEN_SECRET env.now = some decoded)
    (hf : User.findById store decoded._id = some user) (hu : user.refreshToken = some t) :
    refreshAccessToken jwt cfg env (some t) store =
      match env.saveError with
      | some msg => (.error (.other msg), store)
      | none =>
        (.ok { status := 200,
               cookies := [⟨"accessToken", generateAccessToken jwt cfg user._id env.now,
                             accessTokenOptions⟩,
                           ⟨"refreshToken", generateRefreshToken jwt cfg user._id env.now,
                             refreshTokenOptions⟩],
               body := .apiResponse 200 .null "Access token refreshed successfully" },
          Store.setRefreshToken store user._id
            (some (generateRefreshToken jwt cfg user._id env.now))) := by
  unfold refreshAccessToken
  simp only [falsy, ht, decide_False, Bool.false_eq_true, if_false, Option.getD_some, hv, hf, hu,
    ne_eq, not_true_eq_false, User.save]
  cases env.saveError <;> rfl

theorem refreshAccessToken_of_not_checks (jwt : Jwt) (cfg : Config) (env : Env)
    (incoming : Option String) (store : Store)
    (h : ¬ RefreshChecks jwt cfg env.now incoming store) :
    ∃ msg, refreshAccessToken jwt cfg env incoming store
      = (.error (.api { statusCode := 401, message := msg }), store) := by
  unfold refreshAccessToken
  cases incoming with
  | none => exact ⟨"Refresh token missing", by simp [falsy]⟩
  | some t =>
    by_cases ht : t = ""
    · exact ⟨"Refresh token missing", by simp [falsy, ht]⟩
    · simp only [falsy, ht, decide_False, Bool.false_eq_true, if_false, Option.getD_some]
      cases hv : jwt.verify t cfg.REFRESH_TOKEN_SECRET env.now with
      | none => exact ⟨"Invalid or expired refresh token", rfl⟩
      | some decoded =>
        dsimp only
        cases hf : User.findById store decoded._id with
        | none => exact ⟨"Refresh token is invalid or reused", rfl⟩
        | some user =>
          dsimp only
          by_cases hu : user.refreshToken = some t
          · exact absurd ⟨t, rfl, ht, decoded, hv, user, hf, hu⟩ h
          · exact ⟨"Refresh token is invalid or reused", by simp [hu]⟩

/-! ## The reference token library is lawful -/

theorem takeWhile_replicate_dot (c : Char) (hc : c ≠ '.') (n : Nat) (rest : List Char) :
    (List.replicate n c ++ '.' :: rest).takeWhile (fun x => x == c) = List.replicate n c := by
  induction n with
  | zero =>
    have : ('.' == c) = false := by simpa using fun h => hc h.symm
    simp [List.takeWhile, this]
  | succ k ih => simp [List.replicate_succ, List.takeWhile, ih]

theorem dropWhile_replicate_dot (c : Char) (hc : c ≠ '.') (n : Nat) (rest : List Char) :
    (List.replicate n c ++ '.' :: rest).dropWhile (fun x => x == c) = '.' :: rest := by
  induction n with
  | zero =>
    have : ('.' == c) = false := by simpa using fun h => hc h.symm
    simp [List.dropWhile, this]
  | succ k ih => simp [List.replicate_succ, List.dropWhile, ih]

theorem refField_replicate (c : Char) (hc : c ≠ '.') (n : Nat) (rest : List Char) :
    refField c (List.replicate n c ++ '.' :: rest) = some (n, rest) := by
  unfold refField
  rw [dropWhile_replicate_dot c hc, takeWhile_replicate_dot c hc]
  simp

theorem refJwt_lawful : refJwt.Lawful := by
  intro p secret
  show refDecode (refSign p secret) secret = some p
  unfold refDecode refSign
  simp only [refField_replicate 'i' (by decide), refField_replicate 't' (by decide),
    refField_replicate 'e' (by decide), if_true]

/-! ## Claims on token refresh -/

/-- C1: `refreshAccessToken` succeeds, with status 200, exactly when all four
conditions hold: a non-empty refresh token is presented, `jwt.verify` accepts it under
the refresh secret, an account with the decoded `_id` exists, and that account's stored
`refreshToken` is equal to the presented string. For every store and every presented
token, if any one of these fails, the request is answered with status 401, sets no
cookie, and leaves the store as it was. -/
theorem refreshAccessToken_succeeds_iff (jwt : Jwt) (cfg : Config) (now : Nat)
    (saveError : Option String) (incoming : Option String) (store : Store) :
    ((∃ res store1, refreshAccessToken jwt cfg { now := now } incoming store = (.ok res, store1)
          ∧ res.status = 200) ↔
        RefreshChecks jwt cfg now incoming store) ∧
      (¬ RefreshChecks jwt cfg now incoming store →
        (asyncHandler (refreshAccessToken jwt cfg { now := now, saveError := saveError }
          incoming store).1).status = 401 ∧
        (asyncHandler (refreshAccessToken jwt cfg { now := now, saveError := saveError }
          incoming store).1).cookies = [] ∧
        (refreshAccessToken jwt cfg { now := now, saveError := saveError }
          incoming store).2 = store) := by
  refine ⟨⟨?_, ?_⟩, fun h => ?_⟩
  · rintro ⟨res, store1, hok, -⟩
    by_cases hc : RefreshChecks jwt cfg now incoming store
    · exact hc
    · obtain ⟨msg, hmsg⟩ :=
        refreshAccessToken_of_not_checks jwt cfg { now := now } incoming store hc
      rw [hmsg] at hok
      cases hok
  · rintro ⟨t, rfl, ht, decoded, hv, user, hf, hu⟩
    rw [refreshAccessToken_of_checks jwt cfg { now := now } t store decoded user ht hv hf hu]
    exact ⟨_, _, rfl, rfl⟩
  · obtain ⟨msg, hmsg⟩ := refreshAccessToken_of_not_checks jwt cfg
      { now := now, saveError := saveError } incoming store h
    rw [hmsg]
    exact ⟨rfl, rfl, rfl⟩

/-- C1, at a concrete input: Bob's account stores no refresh token, so the token once
signed for him is answered with 401 and no cookie. -/
theorem refreshAccessToken_succeeds_iff_witness :
    (asyncHandler (refreshAccessToken refJwt refConfig { now := 5 }
        (some "ii.ttttt.eeeeeeeeeee.r") [alice, bob]).1).status = 401 ∧
      (asyncHandler (refreshAccessToken refJwt refConfig { now := 5 }
        (some "ii.ttttt.eeeeeeeeeee.r") [alice, bob]).1).cookies = [] ∧
      (refreshAccessToken refJwt refConfig { now := 5 }
        (some "ii.ttttt.eeeeeeeeeee.r") [alice, bob]).2 = [alice, bob] :=
  (refreshAccessToken_succeeds_iff refJwt refConfig 5 none
    (some "ii.ttttt.eeeeeeeeeee.r") [alice, bob]).2 (by
      rintro ⟨t, ht, -, decoded, hv, user, hf, hu⟩
      cases ht
      have hd : refJwt.verify "ii.ttttt.eeeeeeeeeee.r" refConfig.REFRESH_TOKEN_SECRET 5
          = some ⟨2, 5, 11⟩ := by rfl
      rw [hd] at hv
      cases hv
      have hb : User.findById [alice, bob] 2 = some bob := by rfl
      rw [hb] at hf
      cases hf
      cases hu)

theorem verify_decode (jwt : Jwt) (token secret : String) (now : Nat) (p : JwtPayload)
    (h : jwt.verify token secret now = some p) : jwt.decode token secret = some p := by
  unfold Jwt.verify at h
  cases hd : jwt.decode token secret with
  | none => rw [hd] at h; cases h
  | some q =>
    rw [hd] at h
    dsimp only at h
    split at h
    · cases h
    · exact h

theorem cookie_refreshToken (a r : String) (body : Body) :
    HttpResponse.cookie
      { status := 200,
        cookies := [⟨"accessToken", a, accessTokenOptions⟩, ⟨"refreshToken", r, refreshTokenOptions⟩],
        body := body } "refreshToken" = some r := by
  have h : ("accessToken" == "refreshToken") = false := by decide
  simp [HttpResponse.cookie, List.find?, h]

/-- What a successful refresh did: the checks held, the cookie is the token generated
at the request's clock reading, and that token is what the store now holds. -/
theorem refreshAccessToken_ok (jwt : Jwt) (cfg : Config) (env : Env) (incoming : Option String)
    (store store1 : Store) (res : HttpResponse)
    (h : refreshAccessToken jwt cfg env incoming store = (.ok res, store1)) :
    ∃ t decoded user, incoming = some t ∧ t ≠ "" ∧
      jwt.verify t cfg.REFRESH_TOKEN_SECRET env.now = some decoded ∧
      User.findById store decoded._id = some user ∧ user.refreshToken = some t ∧
      env.saveError = none ∧
      res.cookie "refreshToken" = some (generateRefreshToken jwt cfg decoded._id env.now) ∧
      store1 = Store.setRefreshToken store decoded._id
        (some (generateRefreshToken jwt cfg decoded._id env.now)) := by
  by_cases hc : RefreshChecks jwt cfg env.now incoming store
  · obtain ⟨t, rfl, ht, decoded, hv, user, hf, hu⟩ := hc
    rw [refreshAccessToken_of_checks jwt cfg env t store decoded user ht hv hf hu] at h
    have hid := findById_id _ _ _ hf
    cases hs : env.saveError with
    | some msg => rw [hs] at h; cases h
    | none =>
      rw [hs] at h
      dsimp only at h
      rw [hid] at h
      have h1 := (Prod.mk.inj h).1
      have h2 := (Prod.mk.inj h).2
      refine ⟨t, decoded, user, rfl, ht, hv, hf, hu, rfl, ?_, h2.symm⟩
      rw [← Except.ok.inj h1]
      exact cookie_refreshToken _ _ _
  · obtain ⟨msg, hmsg⟩ := refreshAccessToken_of_not_checks jwt cfg env incoming store hc
    rw [hmsg] at h
    cases h

/-- C2, as stated, fails: Alice holds the refresh token issued at second 5 and refreshes
within that same second. The token she gets back is the very token she presented, and
presenting it once more succeeds again. -/
theorem refreshAccessToken_same_second_reissue :
    refreshAccessToken refJwt refConfig { now := 5 } (some "i.ttttt.eeeeeeeeeee.r")
        [{ alice with refreshToken := some "i.ttttt.eeeeeeeeeee.r" }]
      = (.ok { status := 200,
               cookies := [⟨"accessToken", "i.ttttt.eeeeeeee.a", accessTokenOptions⟩,
                           ⟨"refreshToken", "i.ttttt.eeeeeeeeeee.r", refreshTokenOptions⟩],
               body := .apiResponse 200 .null "Access token refreshed successfully" },
          [{ alice with refreshToken := some "i.ttttt.eeeeeeeeeee.r" }]) ∧
      (asyncHandler (refreshAccessToken refJwt refConfig { now := 6 }
          (some "i.ttttt.eeeeeeeeeee.r")
          (refreshAccessToken refJwt refConfig { now := 5 } (some "i.ttttt.eeeeeeeeeee.r")
            [{ alice with refreshToken := some "i.ttttt.eeeeeeeeeee.r" }]).2).1).status = 200 :=
  ⟨by rfl, by rfl⟩

/-- C2 (amended): for every account A and every store in which `refreshAccessToken(t)`
succeeds, the refresh token it returns is `generateRefreshToken` of A's id at the
request's clock reading and is the value now stored for A; and unless `t` was itself
issued in that same clock second (its `iat` is the clock reading of the refresh), the
returned token is distinct from `t`, and calling `refreshAccessToken(t)` again with the
same `t` afterwards is answered with 401, sets no cookie and leaves the store as it
was. -/
theorem refreshAccessToken_single_use (jwt : Jwt) (hjwt : jwt.Lawful) (cfg : Config)
    (env1 env2 : Env) (t : String) (store store1 : Store) (res1 : HttpResponse)
    (decoded : JwtPayload)
    (h1 : refreshAccessToken jwt cfg env1 (some t) store = (.ok res1, store1))
    (hdec : jwt.decode t cfg.REFRESH_TOKEN_SECRET = some decoded) :
    res1.cookie "refreshToken" = some (generateRefreshToken jwt cfg decoded._id env1.now) ∧
      (User.findById store1 decoded._id).map (fun u => u.refreshToken)
        = some (res1.cookie "refreshToken") ∧
      (decoded.iat ≠ env1.now →
        res1.cookie "refreshToken" ≠ some t ∧
        (asyncHandler (refreshAccessToken jwt cfg env2 (some t) store1).1).status = 401 ∧
        (asyncHandler (refreshAccessToken jwt cfg env2 (some t) store1).1).cookies = [] ∧
        (refreshAccessToken jwt cfg env2 (some t) store1).2 = store1) := by
  obtain ⟨t', decoded', user, ht', ht, hv, hf, hu, hs, hcookie, hstore⟩ :=
    refreshAccessToken_ok jwt cfg env1 (some t) store store1 res1 h1
  cases ht'
  have hd1 := verify_decode _ _ _ _ _ hv
  rw [hdec] at hd1
  cases hd1
  have hfind1 : User.findById store1 decoded._id
      = some { user with
          refreshToken := some (generateRefreshToken jwt cfg decoded._id env1.now) } := by
    rw [hstore, findById_setRefreshToken, hf]
    rfl
  refine ⟨hcookie, ?_, fun hiat => ?_⟩
  · rw [hfind1, hcookie]
    rfl
  · have hnew : generateRefreshToken jwt cfg decoded._id env1.now ≠ t := by
      intro heq
      have hsig : jwt.decode (generateRefreshToken jwt cfg decoded._id env1.now)
          cfg.REFRESH_TOKEN_SECRET
          = some { _id := decoded._id, iat := env1.now,
                   exp := env1.now + cfg.REFRESH_TOKEN_EXPIRY } := hjwt _ _
      rw [heq, hdec] at hsig
      exact hiat (congrArg JwtPayload.iat (Option.some.inj hsig))
    have hnot : ¬ RefreshChecks jwt cfg env2.now (some t) store1 := by
      rintro ⟨t2, ht2, -, decoded2, hv2, user2, hf2, hu2⟩
      cases ht2
      have hd2 := verify_decode _ _ _ _ _ hv2
      rw [hdec] at hd2
      cases hd2
      rw [hfind1] at hf2
      cases hf2
      exact hnew (Option.some.inj hu2)
    obtain ⟨msg, hmsg⟩ := refreshAccessToken_of_not_checks jwt cfg env2 (some t) store1 hnot
    refine ⟨?_, ?_⟩
    · rw [hcookie]
      exact fun h => hnew (Option.some.inj h)
    · rw [hmsg]
      exact ⟨rfl, rfl, rfl⟩

/-- C2 (amended), at a concrete input: Alice refreshes at second 7 the token issued at
second 5; the rotated token differs, and the old one is then refused. -/
theorem refreshAccessToken_single_use_witness :
    HttpResponse.cookie
        { status := 200,
          cookies := [⟨"accessToken", "i.ttttttt.eeeeeeeeee.a", accessTokenOptions⟩,
                      ⟨"refreshToken", "i.ttttttt.eeeeeeeeeeeee.r", refreshTokenOptions⟩],
          body := .apiResponse 200 .null "Access token refreshed successfully" }
        "refreshToken" ≠ some "i.ttttt.eeeeeeeeeee.r" ∧
      (asyncHandler (refreshAccessToken refJwt refConfig { now := 8 }
        (some "i.ttttt.eeeeeeeeeee.r")
        [{ alice with refreshToken := some "i.ttttttt.eeeeeeeeeeeee.r" }]).1).status = 401 :=
  ⟨((refreshAccessToken_single_use refJwt refJwt_lawful refConfig { now := 7 } { now := 8 }
      "i.ttttt.eeeeeeeeeee.r" [{ alice with refreshToken := some "i.ttttt.eeeeeeeeeee.r" }]
      [{ alice with refreshToken := some "i.ttttttt.eeeeeeeeeeeee.r" }]
      { status := 200,
        cookies := [⟨"accessToken", "i.ttttttt.eeeeeeeeee.a", accessTokenOptions⟩,
                    ⟨"refreshToken", "i.ttttttt.eeeeeeeeeeeee.r", refreshTokenOptions⟩],
        body := .apiResponse 200 .null "Access token refreshed successfully" }
      ⟨1, 5, 11⟩ (by rfl) (by rfl)).2.2 (by decide)).1,
    ((refreshAccessToken_single_use refJwt refJwt_lawful refConfig { now := 7 } { now := 8 }
      "i.ttttt.eeeeeeeeeee.r" [{ alice with refreshToken := some "i.ttttt.eeeeeeeeeee.r" }]
      [{ alice with refreshToken := some "i.ttttttt.eeeeeeeeeeeee.r" }]
      { status := 200,
        cookies := [⟨"accessToken", "i.ttttttt.eeeeeeeeee.a", accessTokenOptions⟩,
                    ⟨"refreshToken", "i.ttttttt.eeeeeeeeeeeee.r", refreshTokenOptions⟩],
        body := .apiResponse 200 .null "Access token refreshed successfully" }
      ⟨1, 5, 11⟩ (by rfl) (by rfl)).2.2 (by decide)).2.1⟩

/-! ## Lemmas on `loginUser` -/

theorem loginUser_of_credentials (jwt : Jwt) (bcrypt : Bcrypt) (cfg : Config) (env : Env)
    (e pw : String) (store : Store) (user : User) (he : e ≠ "") (hpw : pw ≠ "")
    (hf : User.findOneByEmail store e = some user)
    (hc : bcrypt.compare pw user.password = true) :
    loginUser jwt bcrypt cfg env (some e) (some pw) store =
      match env.saveError with
      | some msg => (.error (.other msg), store)
      | none =>
        (.ok { status := 200,
               cookies := [⟨"accessToken", generateAccessToken jwt cfg user._id env.now,
                             accessTokenOptions⟩,
                           ⟨"refreshToken", generateRefreshToken jwt cfg user._id env.now,
                             refreshTokenOptions⟩],
               body := .apiResponse 200
                 (.login ((User.findById
                   (Store.setRefreshToken store user._id
                     (some (generateRefreshToken jwt cfg user._id env.now))) user._id).map
                   User.select)) "Login successful" },
          Store.setRefreshToken store user._id
            (some (generateRefreshToken jwt cfg user._id env.now))) := by
  unfold loginUser
  simp only [falsy, he, hpw, decide_False, Bool.or_self, Bool.false_eq_true, if_false,
    Option.getD_some, hf, hc, Bool.not_true, User.save]
  cases env.saveError <;> rfl

/-- What a successful login did. -/
theorem loginUser_ok (jwt : Jwt) (bcrypt : Bcrypt) (cfg : Config) (env : Env)
    (email password : Option String) (store store1 : Store) (res : HttpResponse)
    (h : loginUser jwt bcrypt cfg env email password store = (.ok res, store1)) :
    ∃ user, User.findOneByEmail store (email.getD "") = some user ∧
      env.saveError = none ∧
      res.cookie "refreshToken" = some (generateRefreshToken jwt cfg user._id env.now) ∧
      store1 = Store.setRefreshToken store user._id
        (some (generateRefreshToken jwt cfg user._id env.now)) := by
  unfold loginUser at h
  split at h
  · cases h
  · split at h
    · cases h
    · rename_i user hf
      split at h
      · cases h
      · cases hs : env.saveError with
        | some msg => simp [User.save, hs] at h
        | none =>
          simp only [User.save, hs] at h
          have h1 := (Prod.mk.inj h).1
          have h2 := (Prod.mk.inj h).2
          refine ⟨user, hf, rfl, ?_, h2.symm⟩
          rw [← Except.ok.inj h1]
          exact cookie_refreshToken _ _ _

/-- A login either succeeds or throws and leaves the store as it was. -/
theorem loginUser_ok_or_unchanged (jwt : Jwt) (bcrypt : Bcrypt) (cfg : Config) (env : Env)
    (email password : Option String) (store : Store) :
    (∃ res store1, loginUser jwt bcrypt cfg env email password store = (.ok res, store1)) ∨
      (∃ err, loginUser jwt bcrypt cfg env email password store = (.error err, store)) := by
  unfold loginUser
  split
  · exact Or.inr ⟨_, rfl⟩
  · split
    · exact Or.inr ⟨_, rfl⟩
    · split
      · exact Or.inr ⟨_, rfl⟩
      · cases hs : env.saveError with
        | some msg => exact Or.inr ⟨.other msg, rfl⟩
        | none => exact Or.inl ⟨_, _, rfl⟩

/-- A refresh either succeeds or throws and leaves the store as it was. -/
theorem refreshAccessToken_ok_or_unchanged (jwt : Jwt) (cfg : Config) (env : Env)
    (incoming : Option String) (store : Store) :
    (∃ res store1, refreshAccessToken jwt cfg env incoming store = (.ok res, store1)) ∨
      (∃ err, refreshAccessToken jwt cfg env incoming store = (.error err, store)) := by
  by_cases hc : RefreshChecks jwt cfg env.now incoming store
  · obtain ⟨t, rfl, ht, decoded, hv, user, hf, hu⟩ := hc
    rw [refreshAccessToken_of_checks jwt cfg env t store decoded user ht hv hf hu]
    cases env.saveError with
    | some msg => exact Or.inr ⟨_, rfl⟩
    | none => exact Or.inl ⟨_, _, rfl⟩
  · obtain ⟨msg, hmsg⟩ := refreshAccessToken_of_not_checks jwt cfg env incoming store hc
    exact Or.inr ⟨_, hmsg⟩

/-! ## Claims on login -/

/-- C3, as stated, fails: Alice logs in twice within second 5. Both logins return the
same refresh token, and presenting the token of the first login is accepted. -/
theorem loginUser_same_second_same_token :
    (asyncHandler (loginUser refJwt refBcrypt refConfig { now := 5 } (some "alice@x.com")
        (some "secret123") [alice]).1).cookie "refreshToken" = some "i.ttttt.eeeeeeeeeee.r" ∧
      (asyncHandler (loginUser refJwt refBcrypt refConfig { now := 5 } (some "alice@x.com")
        (some "secret123")
        (loginUser refJwt refBcrypt refConfig { now := 5 } (some "alice@x.com")
          (some "secret123") [alice]).2).1).cookie "refreshToken"
        = some "i.ttttt.eeeeeeeeeee.r" ∧
      (asyncHandler (refreshAccessToken refJwt refConfig { now := 6 }
        (some "i.ttttt.eeeeeeeeeee.r")
        (loginUser refJwt refBcrypt refConfig { now := 5 } (some "alice@x.com")
          (some "secret123")
          (loginUser refJwt refBcrypt refConfig { now := 5 } (some "alice@x.com")
            (some "secret123") [alice]).2).2).1).status = 200 :=
  ⟨by rfl, by rfl, by rfl⟩

/-- C3 (amended): for every account A, after `loginUser` succeeds for A twice in
sequence, returning refresh tokens `t1` then `t2`, the account's stored token is `t2`;
and unless the two logins fall in the same clock second, `t1` differs from `t2` and
presenting `t1` to `refreshAccessToken` is answered with 401, sets no cookie and leaves
the store as it was. -/
theorem loginUser_twice_first_token_refused (jwt : Jwt) (hjwt : jwt.Lawful) (bcrypt : Bcrypt)
    (cfg : Config) (env1 env2 env3 : Env) (email pw1 pw2 : Option String)
    (store store1 store2 : Store) (res1 res2 : HttpResponse) (t1 t2 : String)
    (h1 : loginUser jwt bcrypt cfg env1 email pw1 store = (.ok res1, store1))
    (h2 : loginUser jwt bcrypt cfg env2 email pw2 store1 = (.ok res2, store2))
    (ht1 : res1.cookie "refreshToken" = some t1)
    (ht2 : res2.cookie "refreshToken" = some t2) :
    (∃ account, User.findOneByEmail store (email.getD "") = some account ∧
        ∃ u, User.findById store2 account._id = some u ∧ u.refreshToken = some t2) ∧
      (env1.now ≠ env2.now →
        t1 ≠ t2 ∧
        (asyncHandler (refreshAccessToken jwt cfg env3 (some t1) store2).1).status = 401 ∧
        (asyncHandler (refreshAccessToken jwt cfg env3 (some t1) store2).1).cookies = [] ∧
        (refreshAccessToken jwt cfg env3 (some t1) store2).2 = store2) := by
  obtain ⟨user1, hf1, -, hc1, hs1⟩ := loginUser_ok jwt bcrypt cfg env1 email pw1 _ _ _ h1
  obtain ⟨user2, hf2, -, hc2, hs2⟩ := loginUser_ok jwt bcrypt cfg env2 email pw2 _ _ _ h2
  rw [hs1] at hf2
  obtain ⟨v, hv, hvid⟩ := findOneByEmail_setRefreshToken _ _ _ _ _ hf2
  rw [hf1] at hv
  cases hv
  rw [ht1] at hc1
  rw [ht2] at hc2
  obtain ⟨w, hw⟩ := findById_of_findOneByEmail _ _ _ hf1
  have hfind2 : User.findById store2 user1._id
      = some { w with refreshToken := some t2 } := by
    rw [hs2, ← hvid, findById_setRefreshToken, hs1, findById_setRefreshToken, hw,
      Option.some.inj hc2, hvid]
    rfl
  have hsig1 : jwt.decode t1 cfg.REFRESH_TOKEN_SECRET
      = some { _id := user1._id, iat := env1.now,
               exp := env1.now + cfg.REFRESH_TOKEN_EXPIRY } := by
    rw [Option.some.inj hc1]
    exact hjwt _ _
  have hsig2 : jwt.decode t2 cfg.REFRESH_TOKEN_SECRET
      = some { _id := user2._id, iat := env2.now,
               exp := env2.now + cfg.REFRESH_TOKEN_EXPIRY } := by
    rw [Option.some.inj hc2]
    exact hjwt _ _
  refine ⟨⟨user1, hf1, _, hfind2, rfl⟩, fun hclock => ?_⟩
  have hne : t1 ≠ t2 := by
    intro heq
    rw [heq, hsig2] at hsig1
    exact hclock (congrArg JwtPayload.iat (Option.some.inj hsig1)).symm
  have hnot : ¬ RefreshChecks jwt cfg env3.now (some t1) store2 := by
    rintro ⟨t, ht, -, decoded, hver, user, hf, hu⟩
    cases ht
    have hd := verify_decode _ _ _ _ _ hver
    rw [hsig1] at hd
    cases hd
    rw [hfind2] at hf
    cases hf
    exact hne (Option.some.inj hu).symm
  obtain ⟨msg, hmsg⟩ := refreshAccessToken_of_not_checks jwt cfg env3 (some t1) store2 hnot
  rw [hmsg]
  exact ⟨hne, rfl, rfl, rfl⟩

/-- C3 (amended), at a concrete input: Alice logs in at second 5 and again at second 6;
the token of the first login is then refused. -/
theorem loginUser_twice_first_token_refused_witness :
    ("i.ttttt.eeeeeeeeeee.r" : String) ≠ "i.tttttt.eeeeeeeeeeee.r" ∧
      (asyncHandler (refreshAccessToken refJwt refConfig { now := 7 }
        (some "i.ttttt.eeeeeeeeeee.r")
        [{ alice with refreshToken := some "i.tttttt.eeeeeeeeeeee.r" }]).1).status = 401 :=
  have h := (loginUser_twice_first_token_refused refJwt refJwt_lawful refBcrypt refConfig
    { now := 5 } { now := 6 } { now := 7 } (some "alice@x.com") (some "secret123")
    (some "secret123") [alice]
    [{ alice with refreshToken := some "i.ttttt.eeeeeeeeeee.r" }]
    [{ alice with refreshToken := some "i.tttttt.eeeeeeeeeeee.r" }]
    { status := 200,
      cookies := [⟨"accessToken", "i.ttttt.eeeeeeee.a", accessTokenOptions⟩,
                  ⟨"refreshToken", "i.ttttt.eeeeeeeeeee.r", refreshTokenOptions⟩],
      body := .apiResponse 200 (.login (some alice.select)) "Login successful" }
    { status := 200,
      cookies := [⟨"accessToken", "i.tttttt.eeeeeeeee.a", accessTokenOptions⟩,
                  ⟨"refreshToken", "i.tttttt.eeeeeeeeeeee.r", refreshTokenOptions⟩],
      body := .apiResponse 200 (.login (some alice.select)) "Login successful" }
    "i.ttttt.eeeeeeeeeee.r" "i.tttttt.eeeeeeeeeeee.r"
    (by rfl) (by rfl) (by rfl) (by rfl)).2 (by decide)
  ⟨h.1, h.2.1⟩

/-- C4, as stated, fails: the empty secret does not match Alice's password hash, yet
the login is answered with 400, not 401. -/
theorem loginUser_empty_secret :
    User.findOneByEmail [alice] "alice@x.com" = some alice ∧
      refBcrypt.compare "" alice.password = false ∧
      (asyncHandler (loginUser refJwt refBcrypt refConfig { now := 5 } (some "alice@x.com")
        (some "") [alice]).1) =
        { status := 400,
          body := .failure false 400 "Email or username and password are required" [] } :=
  ⟨by rfl, by rfl, by rfl⟩

/-- C4 (amended): for every store in which the lookup by a non-empty email `e` returns an
account, and every non-empty secret `s` that does not match that account's password hash,
`loginUser(e, s)` is answered with 401 Unauthorized, sets no cookie, and leaves the store,
and with it the account's stored `refreshToken`, unchanged. -/
theorem loginUser_wrong_secret (jwt : Jwt) (bcrypt : Bcrypt) (cfg : Config) (env : Env)
    (e s : String) (store : Store) (account : User) (he : e ≠ "") (hs : s ≠ "")
    (hfind : User.findOneByEmail store e = some account)
    (hbad : bcrypt.compare s account.password = false) :
    asyncHandler (loginUser jwt bcrypt cfg env (some e) (some s) store).1
        = { status := 401, body := .failure false 401 "Invalid credentials" [] } ∧
      (asyncHandler (loginUser jwt bcrypt cfg env (some e) (some s) store).1).cookies = [] ∧
      (loginUser jwt bcrypt cfg env (some e) (some s) store).2 = store := by
  have h : loginUser jwt bcrypt cfg env (some e) (some s) store
      = (.error (.api { statusCode := 401, message := "Invalid credentials" }), store) := by
    unfold loginUser
    simp only [falsy, he, hs, decide_False, Bool.or_self, Bool.false_eq_true, if_false,
      Option.getD_some, hfind, hbad, Bool.not_false, if_true]
  rw [h]
  exact ⟨rfl, rfl, rfl⟩

/-- C4 (amended), at a concrete input: Alice's email with a wrong secret. -/
theorem loginUser_wrong_secret_witness :
    asyncHandler (loginUser refJwt refBcrypt refConfig { now := 5 } (some "alice@x.com")
        (some "letmein") [alice, bob]).1
      = { status := 401, body := .failure false 401 "Invalid credentials" [] } :=
  (loginUser_wrong_secret refJwt refBcrypt refConfig { now := 5 } "alice@x.com" "letmein"
    [alice, bob] alice (by decide) (by decide) (by rfl) (by rfl)).1

/-! ## Claims on the outward shape of a refused refresh -/

/-- C5, as stated, fails: a malformed token and a well-signed token that is not the one
stored for Alice are both refused, with responses whose message bodies differ. -/
theorem refreshAccessToken_refusals_differ :
    asyncHandler (refreshAccessToken refJwt refConfig { now := 6 } (some "garbage")
        [{ alice with refreshToken := some "i.tttttt.eeeeeeeeeeee.r" }]).1
      = { status := 401, body := .failure false 401 "Invalid or expired refresh token" [] } ∧
    asyncHandler (refreshAccessToken refJwt refConfig { now := 6 }
        (some "i.ttttt.eeeeeeeeeee.r")
        [{ alice with refreshToken := some "i.tttttt.eeeeeeeeeeee.r" }]).1
      = { status := 401, body := .failure false 401 "Refresh token is invalid or reused" [] } ∧
    asyncHandler (refreshAccessToken refJwt refConfig { now := 6 } (some "garbage")
        [{ alice with refreshToken := some "i.tttttt.eeeeeeeeeeee.r" }]).1
      ≠ asyncHandler (refreshAccessToken refJwt refConfig { now := 6 }
        (some "i.ttttt.eeeeeeeeeee.r")
        [{ alice with refreshToken := some "i.tttttt.eeeeeeeeeeee.r" }]).1 :=
  ⟨by rfl, by rfl, by decide⟩

/-- C5 (amended): every refused refresh attempt is answered with status 401 and sets no
cookie. A presented token that `jwt.verify` rejects, whether malformed, wrongly signed
or expired, always gets one and the same response (message "Invalid or expired refresh
token"), and a verified token that is mismatched against the stored value, or whose
account is gone, always gets one and the same response (message "Refresh token is
invalid or reused"); the two responses differ in the message only. -/
theorem refreshAccessToken_refusal_shape (jwt : Jwt) (cfg : Config) (env : Env) (t : String)
    (store : Store) (ht : t ≠ "") :
    (jwt.verify t cfg.REFRESH_TOKEN_SECRET env.now = none →
      asyncHandler (refreshAccessToken jwt cfg env (some t) store).1
        = { status := 401,
            body := .failure false 401 "Invalid or expired refresh token" [] }) ∧
    (∀ decoded, jwt.verify t cfg.REFRESH_TOKEN_SECRET env.now = some decoded →
      (∀ user, User.findById store decoded._id = some user → user.refreshToken ≠ some t) →
      asyncHandler (refreshAccessToken jwt cfg env (some t) store).1
        = { status := 401,
            body := .failure false 401 "Refresh token is invalid or reused" [] }) ∧
    (∀ err, (refreshAccessToken jwt cfg env (some t) store).1 = .error (.api err) →
      (asyncHandler (refreshAccessToken jwt cfg env (some t) store).1).status = 401 ∧
      (asyncHandler (refreshAccessToken jwt cfg env (some t) store).1).cookies = []) := by
  refine ⟨fun hv => ?_, fun decoded hv hu => ?_, fun err herr => ?_⟩
  · unfold refreshAccessToken
    simp only [falsy, ht, decide_False, Bool.false_eq_true, if_false, Option.getD_some, hv]
    rfl
  · unfold refreshAccessToken
    simp only [falsy, ht, decide_False, Bool.false_eq_true, if_false, Option.getD_some, hv]
    cases hf : User.findById store decoded._id with
    | none => rfl
    | some user =>
      have := hu user hf
      simp only [ne_eq, this, not_false_eq_true, if_true]
      rfl
  · by_cases hc : RefreshChecks jwt cfg env.now (some t) store
    · obtain ⟨t', ht', -, decoded, hv, user, hf, hu⟩ := hc
      cases ht'
      rw [refreshAccessToken_of_checks jwt cfg env t store decoded user ht hv hf hu] at herr
      cases hs : env.saveError with
      | some msg => rw [hs] at herr; cases herr
      | none => rw [hs] at herr; cases herr
    · obtain ⟨msg, hmsg⟩ := refreshAccessToken_of_not_checks jwt cfg env (some t) store hc
      rw [hmsg]
      exact ⟨rfl, rfl⟩

/-- C5 (amended), at a concrete input: an expired token gets the response of a malformed
one. -/
theorem refreshAccessToken_refusal_shape_witness :
    asyncHandler (refreshAccessToken refJwt refConfig { now := 11 }
        (some "i.ttttt.eeeeeeeeeee.r")
        [{ alice with refreshToken := some "i.ttttt.eeeeeeeeeee.r" }]).1
      = { status := 401, body := .failure false 401 "Invalid or expired refresh token" [] } :=
  (refreshAccessToken_refusal_shape refJwt refConfig { now := 11 } "i.ttttt.eeeeeeeeeee.r"
    [{ alice with refreshToken := some "i.ttttt.eeeeeeeeeee.r" }] (by decide)).1 (by rfl)

/-! ## Claims on logout -/

theorem refreshAccessToken_no_stored_token (jwt : Jwt) (cfg : Config) (env : Env) (t : String)
    (store : Store) (account : Nat)
    (hdec : ∀ p, jwt.decode t cfg.REFRESH_TOKEN_SECRET = some p → p._id = account)
    (hnone : ∀ u, User.findById store account = some u → u.refreshToken = none) :
    ¬ RefreshChecks jwt cfg env.now (some t) store := by
  rintro ⟨t', ht', -, decoded, hv, user, hf, hu⟩
  cases ht'
  have hid := hdec _ (verify_decode _ _ _ _ _ hv)
  rw [hid] at hf
  rw [hnone user hf] at hu
  cases hu

/-- C6: for every store and account A, two `logoutUser` calls for A in a row are both
answered with status 200; the store after the second equals the store after the first, in
which A's `refreshToken` is absent; and afterwards `refreshAccessToken`, presented with any
refresh token ever generated for A, at any clock reading, is answered with 401 and sets no
cookie. Nothing is assumed of the store, so this covers an account with no stored token. -/
theorem logoutUser_idempotent (jwt : Jwt) (hjwt : jwt.Lawful) (cfg : Config) (env : Env)
    (account issuedAt : Nat) (store : Store) :
    (asyncHandler (logoutUser (some account) store).1).status = 200 ∧
      (asyncHandler (logoutUser (some account) (logoutUser (some account) store).2).1).status
        = 200 ∧
      (logoutUser (some account) (logoutUser (some account) store).2).2
        = (logoutUser (some account) store).2 ∧
      (∀ u, User.findById (logoutUser (some account) store).2 account = some u →
        u.refreshToken = none) ∧
      (asyncHandler (refreshAccessToken jwt cfg env
          (some (generateRefreshToken jwt cfg account issuedAt))
          (logoutUser (some account) (logoutUser (some account) store).2).2).1).status = 401 ∧
      (asyncHandler (refreshAccessToken jwt cfg env
          (some (generateRefreshToken jwt cfg account issuedAt))
          (logoutUser (some account) (logoutUser (some account) store).2).2).1).cookies = [] := by
  have hidem : (logoutUser (some account) (logoutUser (some account) store).2).2
      = (logoutUser (some account) store).2 :=
    setRefreshToken_idem store account none
  have hnone : ∀ u, User.findById (logoutUser (some account) store).2 account = some u →
      u.refreshToken = none := by
    intro u hu
    have h : User.findById (Store.setRefreshToken store account none) account = some u := hu
    rw [findById_setRefreshToken] at h
    cases hf : User.findById store account with
    | none => rw [hf] at h; cases h
    | some v =>
      rw [hf] at h
      cases h
      rfl
  have hnot : ¬ RefreshChecks jwt cfg env.now
      (some (generateRefreshToken jwt cfg account issuedAt))
      (logoutUser (some account) (logoutUser (some account) store).2).2 := by
    rw [hidem]
    refine refreshAccessToken_no_stored_token jwt cfg env _ _ account (fun p hp => ?_) hnone
    have hsig : jwt.decode (generateRefreshToken jwt cfg account issuedAt)
        cfg.REFRESH_TOKEN_SECRET
        = some { _id := account, iat := issuedAt,
                 exp := issuedAt + cfg.REFRESH_TOKEN_EXPIRY } := hjwt _ _
    rw [hsig] at hp
    cases hp
    rfl
  obtain ⟨msg, hmsg⟩ := refreshAccessToken_of_not_checks jwt cfg env _ _ hnot
  refine ⟨rfl, rfl, hidem, hnone, ?_⟩
  rw [hmsg]
  exact ⟨rfl, rfl⟩

/-- C6, at a concrete input: Alice, logged in at second 5, logs out twice; her token is
then refused. -/
theorem logoutUser_idempotent_witness :
    (logoutUser (some 1) (logoutUser (some 1)
        [{ alice with refreshToken := some "i.ttttt.eeeeeeeeeee.r" }, bob]).2).2 = [alice, bob] ∧
      (asyncHandler (refreshAccessToken refJwt refConfig { now := 6 }
        (some "i.ttttt.eeeeeeeeeee.r") [alice, bob]).1).status = 401 :=
  ⟨by rfl,
    (logoutUser_idempotent refJwt refJwt_lawful refConfig { now := 6 } 1 5
      [{ alice with refreshToken := some "i.ttttt.eeeeeeeeeee.r" }, bob]).2.2.2.2.1⟩

/-! ## Persist before return -/

theorem errorMiddleware_cookies (err : Thrown) : (errorMiddleware err).cookies = [] := by
  cases err with
  | api e =>
    show (if e.isOperational then _ else _ : HttpResponse).cookies = []
    cases e.isOperational <;> rfl
  | other msg => rfl

/-- C7: whenever `loginUser` or `refreshAccessToken` succeeds for account A, the
`refreshToken` cookie of the response is exactly the value stored as A's `refreshToken`
in the resulting store; and if the save fails, the request throws and its response sets
no cookie, so no token is returned. -/
theorem tokens_persisted_before_returned (jwt : Jwt) (bcrypt : Bcrypt) (cfg : Config)
    (env : Env) (email password incoming : Option String) (store : Store) :
    (∀ res store1, loginUser jwt bcrypt cfg env email password store = (.ok res, store1) →
      ∃ account t, User.findOneByEmail store (email.getD "") = some account ∧
        res.cookie "refreshToken" = some t ∧
        ∃ u, User.findById store1 account._id = some u ∧ u.refreshToken = some t) ∧
    (∀ res store1, refreshAccessToken jwt cfg env incoming store = (.ok res, store1) →
      ∃ decoded t, jwt.verify (incoming.getD "") cfg.REFRESH_TOKEN_SECRET env.now = some decoded ∧
        res.cookie "refreshToken" = some t ∧
        ∃ u, User.findById store1 decoded._id = some u ∧ u.refreshToken = some t) ∧
    (env.saveError ≠ none →
      (∃ err, (loginUser jwt bcrypt cfg env email password store).1 = .error err) ∧
      (asyncHandler (loginUser jwt bcrypt cfg env email password store).1).cookies = [] ∧
      (∃ err, (refreshAccessToken jwt cfg env incoming store).1 = .error err) ∧
      (asyncHandler (refreshAccessToken jwt cfg env incoming store).1).cookies = []) := by
  refine ⟨fun res store1 h => ?_, fun res store1 h => ?_, fun hsave => ?_⟩
  · obtain ⟨user, hf, -, hc, hs⟩ := loginUser_ok jwt bcrypt cfg env email password _ _ _ h
    obtain ⟨w, hw⟩ := findById_of_findOneByEmail _ _ _ hf
    refine ⟨user, _, hf, hc, { w with refreshToken := _ }, ?_, rfl⟩
    rw [hs, findById_setRefreshToken, hw]
    rfl
  · obtain ⟨t, decoded, user, ht, -, hv, hf, -, -, hc, hs⟩ :=
      refreshAccessToken_ok jwt cfg env incoming _ _ _ h
    cases ht
    refine ⟨decoded, _, hv, hc, { user with refreshToken := _ }, ?_, rfl⟩
    rw [hs, findById_setRefreshToken, hf]
    rfl
  · have hl : ∃ err, (loginUser jwt bcrypt cfg env email password store).1 = .error err := by
      rcases loginUser_ok_or_unchanged jwt bcrypt cfg env email password store with
        ⟨res, store1, h⟩ | ⟨err, h⟩
      · obtain ⟨_, _, hs, _, _⟩ := loginUser_ok jwt bcrypt cfg env email password _ _ _ h
        exact absurd hs hsave
      · exact ⟨err, by rw [h]⟩
    have hr : ∃ err, (refreshAccessToken jwt cfg env incoming store).1 = .error err := by
      rcases refreshAccessToken_ok_or_unchanged jwt cfg env incoming store with
        ⟨res, store1, h⟩ | ⟨err, h⟩
      · obtain ⟨_, _, _, _, _, _, _, _, hs, _, _⟩ :=
          refreshAccessToken_ok jwt cfg env incoming _ _ _ h
        exact absurd hs hsave
      · exact ⟨err, by rw [h]⟩
    obtain ⟨e1, he1⟩ := hl
    obtain ⟨e2, he2⟩ := hr
    refine ⟨⟨e1, he1⟩, ?_, ⟨e2, he2⟩, ?_⟩
    · rw [he1]; exact errorMiddleware_cookies e1
    · rw [he2]; exact errorMiddleware_cookies e2

/-- C7, at a concrete input: Alice's login at second 5, once with the write accepted and
once with the write rejected. -/
theorem tokens_persisted_before_returned_witness :
    (∃ account t, User.findOneByEmail [alice, bob] "alice@x.com" = some account ∧
        HttpResponse.cookie
          { status := 200,
            cookies := [⟨"accessToken", "i.ttttt.eeeeeeee.a", accessTokenOptions⟩,
                        ⟨"refreshToken", "i.ttttt.eeeeeeeeeee.r", refreshTokenOptions⟩],
            body := .apiResponse 200 (.login (some alice.select)) "Login successful" }
          "refreshToken" = some t ∧
        ∃ u, User.findById [{ alice with refreshToken := some "i.ttttt.eeeeeeeeeee.r" }, bob]
          account._id = some u ∧ u.refreshToken = some t) ∧
      (asyncHandler (loginUser refJwt refBcrypt refConfig
        { now := 5, saveError := some "MongoNetworkError" } (some "alice@x.com")
        (some "secret123") [alice, bob]).1).cookies = [] :=
  ⟨(tokens_persisted_before_returned refJwt refBcrypt refConfig { now := 5 }
      (some "alice@x.com") (some "secret123") none [alice, bob]).1 _ _ (by rfl),
    ((tokens_persisted_before_returned refJwt refBcrypt refConfig
      { now := 5, saveError := some "MongoNetworkError" }
      (some "alice@x.com") (some "secret123") none [alice, bob]).2.2 (by simp)).2.1⟩

/-! ## Registration rollback -/

/-- C8: for every registration in which the avatar upload succeeded and the subsequent
`User.create` fails, `registerUser` requests the deletion of exactly the uploaded asset's
`fileId`, adds no account to the store, and throws the creation error itself; whether or
not the deletion fails (`env.deleteFails`), nothing else is thrown. -/
theorem registerUser_rollback (bcrypt : Bcrypt) (env : RegisterEnv)
    (username email password filePath : String) (w : World) (up : Upload) (msg : String)
    (hu : username ≠ "") (he : email ≠ "") (hp : password ≠ "") (hfile : filePath ≠ "")
    (hnew : User.findOneByUsernameOrEmail w.users username email = none)
    (hup : env.upload = some up) (hcreate : env.createError = some msg) :
    (User.create w.users
        { _id := env.newId, username := trim username, avatar := up.url,
          avatarFileId := up.fileId, email := email,
          password := bcrypt.hash password 10 env.salt, refreshToken := none }
        env.createError).1 = .error (.other msg) ∧
      (registerUser bcrypt env (some username) (some email) (some password) (some filePath) w).1
        = .error (.other msg) ∧
      (registerUser bcrypt env (some username) (some email) (some password)
        (some filePath) w).2.users = w.users ∧
      (registerUser bcrypt env (some username) (some email) (some password)
        (some filePath) w).2.deleteRequests = w.deleteRequests ++ [up.fileId] := by
  have h : registerUser bcrypt env (some username) (some email) (some password)
      (some filePath) w
      = (.error (.other msg), deleteOnImageKit up.fileId env.deleteFails w) := by
    unfold registerUser
    simp only [falsy, hu, he, hp, hfile, decide_False, Bool.or_self, Bool.false_eq_true,
      if_false, Option.getD_some, hnew, hup, hcreate, User.create]
  rw [h, hcreate]
  exact ⟨rfl, rfl, rfl, rfl⟩

/-- C8, at a concrete input: Carol's registration, with the database rejecting the new
document and the asset host failing the deletion as well. -/
theorem registerUser_rollback_witness :
    registerUser refBcrypt
        { upload := some ⟨"https://ik.example/carol.png", "file-3"⟩, salt := "salt", newId := 3,
          createError := some "E11000 duplicate key", deleteFails := true }
        (some "carol") (some "carol@x.com") (some "pw") (some "/tmp/carol.png")
        { users := [alice, bob], deleteRequests := [], log := [] }
      = (.error (.other "E11000 duplicate key"),
          { users := [alice, bob], deleteRequests := ["file-3"],
            log := ["ImageKit delete failed: file-3"] }) ∧
      (registerUser refBcrypt
        { upload := some ⟨"https://ik.example/carol.png", "file-3"⟩, salt := "salt", newId := 3,
          createError := some "E11000 duplicate key", deleteFails := true }
        (some "carol") (some "carol@x.com") (some "pw") (some "/tmp/carol.png")
        { users := [alice, bob], deleteRequests := [], log := [] }).2.deleteRequests
        = [] ++ ["file-3"] :=
  ⟨by rfl,
    (registerUser_rollback refBcrypt
      { upload := some ⟨"https://ik.example/carol.png", "file-3"⟩, salt := "salt", newId := 3,
        createError := some "E11000 duplicate key", deleteFails := true }
      "carol" "carol@x.com" "pw" "/tmp/carol.png"
      { users := [alice, bob], deleteRequests := [], log := [] }
      ⟨"https://ik.example/carol.png", "file-3"⟩ "E11000 duplicate key"
      (by decide) (by decide) (by decide) (by decide) (by rfl) rfl rfl).2.2.2⟩

/-! ## Frame of the session operations -/

/-- C9: for every store, `loginUser`, `refreshAccessToken` and `logoutUser` leave every
record other than that of the account they act on unchanged (the account found by email,
the account of the verified token, the account of `req.user`), and change no field of
that account other than `refreshToken`; and whenever `loginUser` or `refreshAccessToken`
throws, the whole store is unchanged. -/
theorem session_operations_frame (jwt : Jwt) (bcrypt : Bcrypt) (cfg : Config) (env : Env)
    (email password incoming : Option String) (userId : Option Nat) (store : Store) :
    Store.Frame ((User.findOneByEmail store (email.getD "")).map (fun u => u._id)) store
        (loginUser jwt bcrypt cfg env email password store).2 ∧
      Store.Frame
        ((jwt.verify (incoming.getD "") cfg.REFRESH_TOKEN_SECRET env.now).map (fun p => p._id))
        store (refreshAccessToken jwt cfg env incoming store).2 ∧
      Store.Frame userId store (logoutUser userId store).2 ∧
      (∀ err, (loginUser jwt bcrypt cfg env email password store).1 = .error err →
        (loginUser jwt bcrypt cfg env email password store).2 = store) ∧
      (∀ err, (refreshAccessToken jwt cfg env incoming store).1 = .error err →
        (refreshAccessToken jwt cfg env incoming store).2 = store) := by
  refine ⟨?_, ?_, ?_, fun err herr => ?_, fun err herr => ?_⟩
  · rcases loginUser_ok_or_unchanged jwt bcrypt cfg env email password store with
      ⟨res, store1, h⟩ | ⟨err, h⟩
    · obtain ⟨user, hf, -, -, hs⟩ := loginUser_ok jwt bcrypt cfg env email password _ _ _ h
      rw [h, hf, hs]
      exact setRefreshToken_frame _ _ _
    · rw [h]
      exact frame_refl _ _
  · rcases refreshAccessToken_ok_or_unchanged jwt cfg env incoming store with
      ⟨res, store1, h⟩ | ⟨err, h⟩
    · obtain ⟨t, decoded, user, ht, -, hv, -, -, -, -, hs⟩ :=
        refreshAccessToken_ok jwt cfg env incoming _ _ _ h
      cases ht
      rw [h, Option.getD_some, hv, hs]
      exact setRefreshToken_frame _ _ _
    · rw [h]
      exact frame_refl _ _
  · cases userId with
    | none => exact frame_refl _ _
    | some id => exact setRefreshToken_frame _ _ _
  · rcases loginUser_ok_or_unchanged jwt bcrypt cfg env email password store with
      ⟨res, store1, h⟩ | ⟨err2, h⟩
    · rw [h] at herr; cases herr
    · rw [h]
  · rcases refreshAccessToken_ok_or_unchanged jwt cfg env incoming store with
      ⟨res, store1, h⟩ | ⟨err2, h⟩
    · rw [h] at herr; cases herr
    · rw [h]

/-- C9, at a concrete input: a login for an unknown email is answered 404 and the store
is as before. -/
theorem session_operations_frame_witness :
    (loginUser refJwt refBcrypt refConfig { now := 5 } (some "carol@x.com") (some "pw")
        [alice, bob]).1
        = .error (.api { statusCode := 404, message := "User does not exist" }) ∧
      (loginUser refJwt refBcrypt refConfig { now := 5 } (some "carol@x.com") (some "pw")
        [alice, bob]).2 = [alice, bob] :=
  ⟨by rfl,
    (session_operations_frame refJwt refBcrypt refConfig { now := 5 } (some "carol@x.com")
      (some "pw") none none [alice, bob]).2.2.2.1 _ (by rfl)⟩

/-! ## Blog ownership -/

theorem strictNe_fresh (value : Nat) (userId : JsValue) (next : Nat)
    (h : userId.allocatedBefore next = true) :
    (JsValue.objectId next value).strictNe userId = true := by
  cases userId with
  | undefined => rfl
  | string s => rfl
  | objectId ref v =>
    have hlt : ref < next := of_decide_eq_true h
    simp [JsValue.strictNe]
    omega

/-- C10, in general: whenever the blog exists and has a stored owner, `deleteBlog` and
`updateBlog` throw 403 for every requester whose `_id` was created before the document
was loaded, whatever id it holds, and the collection is left as it was. -/
theorem ownership_check_refuses_everyone (userId : JsValue) (blogId : Nat)
    (title description filePath : Option String) (upload : Option Upload) (st : BlogState)
    (b : BlogDoc) (owner : Nat)
    (hfind : st.blogs.find? (fun b => decide (b._id = blogId)) = some b)
    (howner : b.owner = some owner) (hreq : userId.allocatedBefore st.nextRef = true) :
    (deleteBlog userId blogId st).1
        = .error (.api { statusCode := 403,
                         message := "You are not allowed to delete this blog" }) ∧
      (deleteBlog userId blogId st).2.blogs = st.blogs ∧
      (updateBlog userId blogId title description filePath upload st).1
        = .error (.api { statusCode := 403,
                         message := "You are not allowed to update this blog" }) ∧
      (updateBlog userId blogId title description filePath upload st).2.blogs = st.blogs := by
  have hload : Blog.findById st blogId
      = (some { doc := b, owner := .objectId st.nextRef owner },
          { st with nextRef := st.nextRef + 1 }) := by
    unfold Blog.findById
    rw [hfind]
    dsimp only
    rw [howner]
  have hne := strictNe_fresh owner userId st.nextRef hreq
  unfold deleteBlog updateBlog
  rw [hload]
  dsimp only
  rw [hne]
  exact ⟨rfl, rfl, rfl, rfl⟩

/-- C10, at the failing input: the blog with `_id` 10 is owned by the account with id 1,
and the requester's `_id` is an `ObjectId` holding 1. The owner is refused with 403 and
the blog is still there. -/
theorem deleteBlog_owner_refused :
    (asyncHandler (deleteBlog (.objectId 0 1) 10
        { blogs := [{ _id := 10, title := "Hello", description := "First post",
                      thumbnail := "https://ik.example/t.png", thumbnailFileId := "file-9",
                      owner := some 1 }],
          nextRef := 1 }).1)
        = { status := 403,
            body := .failure false 403 "You are not allowed to delete this blog" [] } ∧
      (deleteBlog (.objectId 0 1) 10
        { blogs := [{ _id := 10, title := "Hello", description := "First post",
                      thumbnail := "https://ik.example/t.png", thumbnailFileId := "file-9",
                      owner := some 1 }],
          nextRef := 1 }).2.blogs
        = [{ _id := 10, title := "Hello", description := "First post",
             thumbnail := "https://ik.example/t.png", thumbnailFileId := "file-9",
             owner := some 1 }] :=
  ⟨by rfl,
    (ownership_check_refuses_everyone (.objectId 0 1) 10 none none none none
      { blogs := [{ _id := 10, title := "Hello", description := "First post",
                    thumbnail := "https://ik.example/t.png", thumbnailFileId := "file-9",
                    owner := some 1 }],
        nextRef := 1 }
      { _id := 10, title := "Hello", description := "First post",
        thumbnail := "https://ik.example/t.png", thumbnailFileId := "file-9", owner := some 1 }
      1 (by rfl) rfl (by rfl)).2.1⟩

end BlogApi
